import Mathlib

/-!
Shallow embedding of the batch claim-dispatch-reconcile orchestrator in
`src/main.py` (`call_url_processor_service`, `update_bq_row`,
`process_batch_from_bq`), together with the module-level configuration
loading.  External collaborators (the BigQuery store, the HTTP processing
endpoint, the thread pool) are modelled as oracles supplied as explicit
arguments; everything the Python code itself computes (string messages,
classification of responses, the per-item result dictionary, the loop over
writes, return codes) is translated directly from the source.
-/

namespace VideoBatch

/-- Lifecycle status markers written into the store by the job. -/
inductive Status where
  | PENDING
  | PROCESSING
  | COMPLETED
  | FAILED_PROCESSING
  deriving DecidableEq

/-- One fetched row: `SELECT url, id FROM source WHERE status = 'PENDING'`. -/
structure WorkItem where
  url : String
  id : String
  deriving DecidableEq

/-- Python truthiness of an optional environment-variable value:
`None` (variable unset) and the empty string are falsy. -/
def falsyOpt : Option String → Bool
  | none => true
  | some s => s.isEmpty

/-- The environment variables read at module load (src/main.py lines 13-20). -/
structure Env where
  BIGQUERY_PROJECT : Option String
  BIGQUERY_DATASET : Option String
  BIGQUERY_TABLE_SOURCE : Option String
  BIGQUERY_TABLE_TARGET : Option String
  URL_PROCESSOR_SERVICE_URL : Option String

/-- The hard-coded default in
`os.environ.get("URL_PROCESSOR_SERVICE_URL", "https://python-video-context-YOUR_PROJECT_NUMBER.us-central1.run.app")`. -/
def defaultServiceUrl : String :=
  "https://python-video-context-YOUR_PROJECT_NUMBER.us-central1.run.app"

/-- Value of the module-level `URL_PROCESSOR_SERVICE_URL` binding:
`os.environ.get` with a default, so an unset variable yields the default. -/
def resolvedServiceUrl (env : Env) : String :=
  env.URL_PROCESSOR_SERVICE_URL.getD defaultServiceUrl

/-- Whether module load raises `ValueError("URL_PROCESSOR_SERVICE_URL must be set.")`
(src/main.py lines 30-32): it fires exactly when the resolved value is falsy,
which for a string means empty. -/
def startupRaises (env : Env) : Bool :=
  (resolvedServiceUrl env).isEmpty

/-- Python `str.startswith`, on the underlying character lists. -/
def pyStartswith (s pat : String) : Bool :=
  pat.data.isPrefixOf s.data

/-- Python `pat in s` (substring containment), used only to state properties
about the synthesized error messages. -/
def occursIn (pat s : String) : Bool :=
  (List.range (s.data.length + 1)).any fun i => pat.data.isPrefixOf (s.data.drop i)

/-- Outcome of the HTTP interaction inside `call_url_processor_service`:
a 2xx response body, a `requests.exceptions.Timeout`, any other
`requests.exceptions.RequestException` (this includes the `HTTPError`
raised by `response.raise_for_status()`), or any other exception. -/
inductive HttpOutcome where
  | success (text : String)
  | timeout
  | requestError (details : String)
  | otherError (details : String)
  deriving DecidableEq

/-- `call_url_processor_service` (src/main.py lines 36-70): returns the
response text on success and an `ERROR:`-prefixed synthesized message on
each exception path. -/
def call_url_processor_service (serviceUrl url : String) (h : HttpOutcome) : String :=
  match h with
  | HttpOutcome.success text => text
  | HttpOutcome.timeout =>
      "ERROR: Timeout processing '" ++ url ++ "' at " ++ serviceUrl
  | HttpOutcome.requestError e =>
      "ERROR: Request failed for '" ++ url ++ "'. Details: " ++ e
  | HttpOutcome.otherError e =>
      "ERROR: Unexpected error for '" ++ url ++ "'. Details: " ++ e

/-- Behaviour of one submitted future as observed at
`future.result(timeout=URL_PROCESSOR_TIMEOUT_SECONDS)`: it either returns the
string computed by `call_url_processor_service` for some HTTP interaction,
raises `concurrent.futures.TimeoutError`, or raises some other exception. -/
inductive CallBehavior where
  | returns (h : HttpOutcome)
  | futureTimeout
  | futureError (details : String)
  deriving DecidableEq

/-- One entry of the `processed_results` dictionary:
`{"context": str, "status": str}`. -/
structure ItemResult where
  context : String
  status : Status
  deriving DecidableEq

/-- Classification of a returned content string (src/main.py lines 182-185):
`content.startswith("ERROR:")` decides between `FAILED_PROCESSING` and
`COMPLETED`; the content is stored verbatim as context either way. -/
def classifyContent (content : String) : ItemResult :=
  if pyStartswith content "ERROR:" then
    { context := content, status := Status.FAILED_PROCESSING }
  else
    { context := content, status := Status.COMPLETED }

/-- The body of the result-collection loop for one `(row_id, future)` pair
(src/main.py lines 178-191). -/
def dispatchOne (serviceUrl url row_id : String) (b : CallBehavior) : ItemResult :=
  match b with
  | CallBehavior.returns h =>
      classifyContent (call_url_processor_service serviceUrl url h)
  | CallBehavior.futureTimeout =>
      { context := "ERROR: Processing timed out for '" ++ row_id ++ "'."
        status := Status.FAILED_PROCESSING }
  | CallBehavior.futureError e =>
      { context := "ERROR: Unexpected error during result retrieval for '" ++ row_id
            ++ "'. Details: " ++ e
        status := Status.FAILED_PROCESSING }

/-- Python dict assignment `d[k] = v` on an insertion-ordered association
list: an existing key is updated in place, a new key is appended. -/
def dictInsert (d : List (String × ItemResult)) (k : String) (v : ItemResult) :
    List (String × ItemResult) :=
  if d.any fun p => p.1 == k then
    d.map fun p => if p.1 == k then (k, v) else p
  else
    d ++ [(k, v)]

/-- Steps 3 of `process_batch_from_bq`: submit every item, then collect one
result per `(row_id, future)` pair into the `processed_results` dict.
`behavior` is the oracle describing how each item's future behaves. -/
def dispatchLoop (serviceUrl : String) (items : List WorkItem)
    (behavior : WorkItem → CallBehavior) : List (String × ItemResult) :=
  items.foldl
    (fun d item => dictInsert d item.id (dispatchOne serviceUrl item.url item.id (behavior item)))
    []

/-- Keys of the `processed_results` dict, in insertion order. -/
def dictKeys (d : List (String × ItemResult)) : List String :=
  d.map Prod.fst

/-- Result of one store write as decided by the store itself. -/
inductive WriteOutcome where
  | ok
  | storeError (details : String)
  deriving DecidableEq

/-- Observable store/dispatch events emitted during one job invocation, in
program order.  `writeAttempt` is an UPDATE actually sent to the store
(recording whether it succeeded); `writeSkipped` is `update_bq_row`
returning `False` without contacting the store because
`BIGQUERY_TABLE_TARGET` is not configured. -/
inductive Event where
  | fetchQuery
  | claim (ids : List String)
  | dispatch (id : String)
  | writeAttempt (id : String) (context : String) (status : Status) (ok : Bool)
  | writeSkipped (id : String)
  deriving DecidableEq

/-- Boolean view of `WriteOutcome`. -/
def writeOk : WriteOutcome → Bool
  | WriteOutcome.ok => true
  | WriteOutcome.storeError _ => false

/-- `update_bq_row` (src/main.py lines 74-103): returns `False` immediately
if the target table is not configured; otherwise issues the UPDATE and
returns `True` on success, `False` if the store raised. Also reports the
event it produced. -/
def update_bq_row (env : Env) (write : String → WriteOutcome)
    (row_id context : String) (status : Status) : Bool × Event :=
  if falsyOpt env.BIGQUERY_TABLE_TARGET then
    (false, Event.writeSkipped row_id)
  else
    match write row_id with
    | WriteOutcome.ok => (true, Event.writeAttempt row_id context status true)
    | WriteOutcome.storeError _ => (false, Event.writeAttempt row_id context status false)

/-- One iteration of the write-back loop (src/main.py lines 196-198),
accumulating `successful_updates` and the emitted events. -/
def reconcileStep (env : Env) (write : String → WriteOutcome)
    (acc : Nat × List Event) (p : String × ItemResult) : Nat × List Event :=
  let r := update_bq_row env write p.1 p.2.context p.2.status
  (acc.1 + (if r.1 then 1 else 0), acc.2 ++ [r.2])

/-- Step 4 of `process_batch_from_bq`: write every collected result back,
one `update_bq_row` call per dict entry, counting successes. -/
def reconcileLoop (env : Env) (write : String → WriteOutcome)
    (rs : List (String × ItemResult)) : Nat × List Event :=
  rs.foldl (reconcileStep env write) (0, [])

/-- Number of dict entries whose write-back returns `True`. -/
def countSuccessfulWrites (env : Env) (write : String → WriteOutcome)
    (rs : List (String × ItemResult)) : Nat :=
  (rs.filter fun p => (update_bq_row env write p.1 p.2.context p.2.status).1).length

/-- Number of dict entries classified `COMPLETED`. -/
def completedCount (rs : List (String × ItemResult)) : Nat :=
  (rs.filter fun p => p.2.status == Status.COMPLETED).length

/-- Result of the fetch query as decided by the store: rows, the
`google.cloud.exceptions.NotFound` path, or any other store failure
(re-raised by the final `except Exception: raise`). -/
inductive FetchResult where
  | rows (items : List WorkItem)
  | notFound
  | storeFailure (details : String)

/-- Result of the claim UPDATE as decided by the store. -/
inductive ClaimOutcome where
  | ok
  | failure (details : String)

/-- Observable result of one job invocation: a `(message, code)` return, an
exception propagating out of `process_batch_from_bq`, or the module-level
`ValueError` raised before the function even runs. -/
inductive JobResult where
  | returns (message : String) (code : Nat)
  | raisesError (details : String)
  | startupFailure (details : String)
  deriving DecidableEq

/-- Python `f"Batch processing complete. Processed {n} URLs, updated {k}."`. -/
def batchReport (n k : Nat) : String :=
  "Batch processing complete. Processed " ++ toString n ++ " URLs, updated "
    ++ toString k ++ "."

/-- `process_batch_from_bq` (src/main.py lines 106-210), with the store and
the futures modelled by the `fetch`, `claimOutcome`, `behavior` and `write`
oracles.  Returns the job result together with the ordered list of emitted
events. -/
def process_batch_from_bq (env : Env) (fetch : FetchResult) (claimOutcome : ClaimOutcome)
    (behavior : WorkItem → CallBehavior) (write : String → WriteOutcome) :
    JobResult × List Event :=
  if falsyOpt env.BIGQUERY_TABLE_SOURCE then
    (JobResult.returns "Configuration error: BIGQUERY_TABLE_SOURCE is not set." 500, [])
  else if (resolvedServiceUrl env).isEmpty then
    (JobResult.returns "Configuration error: URL_PROCESSOR_SERVICE_URL is not set." 500, [])
  else
    match fetch with
    | FetchResult.notFound =>
        (JobResult.returns "Source table not found." 404, [Event.fetchQuery])
    | FetchResult.storeFailure e =>
        (JobResult.raisesError e, [Event.fetchQuery])
    | FetchResult.rows items =>
        if items.isEmpty then
          (JobResult.returns "No pending URLs found. Job finished." 200, [Event.fetchQuery])
        else
          match claimOutcome with
          | ClaimOutcome.failure e =>
              (JobResult.raisesError e,
               [Event.fetchQuery, Event.claim (items.map WorkItem.id)])
          | ClaimOutcome.ok =>
              let rs := dispatchLoop (resolvedServiceUrl env) items behavior
              let recon := reconcileLoop env write rs
              (JobResult.returns (batchReport rs.length recon.1) 200,
               Event.fetchQuery :: Event.claim (items.map WorkItem.id)
                 :: (items.map fun i => Event.dispatch i.id) ++ recon.2)

/-- One whole invocation: module load (which can raise the `ValueError`)
followed by `process_batch_from_bq()`. -/
def runJob (env : Env) (fetch : FetchResult) (claimOutcome : ClaimOutcome)
    (behavior : WorkItem → CallBehavior) (write : String → WriteOutcome) :
    JobResult × List Event :=
  if startupRaises env then
    (JobResult.startupFailure "URL_PROCESSOR_SERVICE_URL must be set.", [])
  else
    process_batch_from_bq env fetch claimOutcome behavior write

/-- Effect of one event on the per-id durable status (initially `PENDING`
for fetched rows): the claim UPDATE sets the listed ids to `PROCESSING`, a
successful result write sets the written status, and everything else leaves
the store unchanged. -/
def applyEvent (st : String → Status) : Event → String → Status
  | Event.claim ids => fun x => if x ∈ ids then Status.PROCESSING else st x
  | Event.writeAttempt id _ s ok =>
      fun x => if ok then (if x = id then s else st x) else st x
  | _ => st

/-- Durable status of an id after replaying a trace over an all-`PENDING`
initial store. -/
def finalStatus (tr : List Event) (x : String) : Status :=
  (tr.foldl applyEvent fun _ => Status.PENDING) x

/-- Recognizer for dispatch events. -/
def isDispatchEvt : Event → Bool
  | Event.dispatch _ => true
  | _ => false

/-- Recognizer for the events produced by `update_bq_row` calls. -/
def isWriteEvt : Event → Bool
  | Event.writeAttempt _ _ _ _ => true
  | Event.writeSkipped _ => true
  | _ => false

/-- Recognizer for store-contacting write events only. -/
def isWriteAttempt : Event → Bool
  | Event.writeAttempt _ _ _ _ => true
  | _ => false

/-- Id targeted by a store-contacting write event. -/
def writeAttemptId : Event → Option String
  | Event.writeAttempt id _ _ _ => some id
  | _ => none

/-- A fully configured environment, used in concrete scenarios. -/
def envFull : Env :=
  { BIGQUERY_PROJECT := some "proj", BIGQUERY_DATASET := some "ds",
    BIGQUERY_TABLE_SOURCE := some "src", BIGQUERY_TABLE_TARGET := some "tgt",
    URL_PROCESSOR_SERVICE_URL := some "https://svc" }

/-- Environment with `URL_PROCESSOR_SERVICE_URL` unset and everything else
configured. -/
def envNoUrl : Env :=
  { BIGQUERY_PROJECT := some "proj", BIGQUERY_DATASET := some "ds",
    BIGQUERY_TABLE_SOURCE := some "src", BIGQUERY_TABLE_TARGET := some "tgt",
    URL_PROCESSOR_SERVICE_URL := none }

/-- Environment with `BIGQUERY_TABLE_TARGET` unset and everything else
configured. -/
def envNoTarget : Env :=
  { BIGQUERY_PROJECT := some "proj", BIGQUERY_DATASET := some "ds",
    BIGQUERY_TABLE_SOURCE := some "src", BIGQUERY_TABLE_TARGET := none,
    URL_PROCESSOR_SERVICE_URL := some "https://svc" }

/-! ### Helper lemmas -/

lemma pyStartswith_append_left (s t pat : String) (h : pyStartswith s pat = true) :
    pyStartswith (s ++ t) pat = true := by
  unfold pyStartswith at h ⊢
  rw [List.isPrefixOf_iff_prefix] at h ⊢
  rw [String.data_append s t]
  exact h.trans (List.prefix_append s.data t.data)

lemma occursIn_middle (a pat b : String) : occursIn pat (a ++ pat ++ b) = true := by
  unfold occursIn
  rw [List.any_eq_true]
  refine ⟨a.data.length, ?_, ?_⟩
  · rw [List.mem_range, String.data_append (a ++ pat) b, String.data_append a pat,
      List.length_append, List.length_append]
    omega
  · rw [String.data_append (a ++ pat) b, String.data_append a pat, List.append_assoc,
      List.drop_left, List.isPrefixOf_iff_prefix]
    exact List.prefix_append pat.data b.data

lemma dictInsert_of_not_mem (d : List (String × ItemResult)) (k : String) (v : ItemResult)
    (h : k ∉ d.map Prod.fst) : dictInsert d k v = d ++ [(k, v)] := by
  unfold dictInsert
  have hany : (d.any fun p => p.1 == k) = false := by
    rw [List.any_eq_false]
    intro p hp
    simp only [beq_iff_eq]
    intro hk
    exact h (hk ▸ List.mem_map_of_mem Prod.fst hp)
  rw [hany]
  simp

lemma dispatchFold_keys (svc : String) (behavior : WorkItem → CallBehavior)
    (items : List WorkItem) :
    ∀ d : List (String × ItemResult),
      (items.map WorkItem.id).Nodup →
      (∀ i ∈ items, i.id ∉ d.map Prod.fst) →
      ((items.foldl (fun acc item =>
          dictInsert acc item.id (dispatchOne svc item.url item.id (behavior item))) d).map
        Prod.fst) = d.map Prod.fst ++ items.map WorkItem.id := by
  induction items with
  | nil => intro d _ _; simp
  | cons i t ih =>
    intro d hnd hdisj
    rw [List.foldl_cons, dictInsert_of_not_mem d i.id _ (hdisj i (List.mem_cons_self i t))]
    have hnd' : (∀ x ∈ t, ¬x.id = i.id) ∧ (t.map WorkItem.id).Nodup := by simpa using hnd
    have hdisj' : ∀ j ∈ t,
        j.id ∉ (d ++ [(i.id, dispatchOne svc i.url i.id (behavior i))]).map Prod.fst := by
      intro j hj hmem
      rcases (by simpa using hmem : j.id ∈ d.map Prod.fst ∨ j.id = i.id) with h1 | h2
      · exact hdisj j (List.mem_cons_of_mem i hj) h1
      · exact hnd'.1 j hj h2
    rw [ih _ hnd'.2 hdisj']
    simp

lemma dispatchLoop_keys (svc : String) (items : List WorkItem)
    (behavior : WorkItem → CallBehavior) (h : (items.map WorkItem.id).Nodup) :
    dictKeys (dispatchLoop svc items behavior) = items.map WorkItem.id := by
  unfold dispatchLoop dictKeys
  simpa using dispatchFold_keys svc behavior items [] h (by simp)

lemma update_bq_row_target_set (env : Env) (write : String → WriteOutcome)
    (row_id context : String) (status : Status)
    (htgt : falsyOpt env.BIGQUERY_TABLE_TARGET = false) :
    update_bq_row env write row_id context status
      = (writeOk (write row_id),
         Event.writeAttempt row_id context status (writeOk (write row_id))) := by
  unfold update_bq_row
  rw [htgt]
  cases write row_id <;> simp [writeOk]

lemma update_bq_row_target_unset (env : Env) (write : String → WriteOutcome)
    (row_id context : String) (status : Status)
    (htgt : falsyOpt env.BIGQUERY_TABLE_TARGET = true) :
    update_bq_row env write row_id context status = (false, Event.writeSkipped row_id) := by
  unfold update_bq_row
  rw [htgt]
  simp

lemma reconcile_foldl_fst (env : Env) (write : String → WriteOutcome)
    (rs : List (String × ItemResult)) :
    ∀ acc : Nat × List Event,
      (rs.foldl (reconcileStep env write) acc).1 = acc.1 + countSuccessfulWrites env write rs := by
  induction rs with
  | nil => intro acc; simp [countSuccessfulWrites]
  | cons p t ih =>
    intro acc
    rw [List.foldl_cons, ih]
    simp only [reconcileStep, countSuccessfulWrites, List.filter_cons]
    split <;> (simp; try omega)

lemma reconcile_foldl_snd (env : Env) (write : String → WriteOutcome)
    (rs : List (String × ItemResult)) :
    ∀ acc : Nat × List Event,
      (rs.foldl (reconcileStep env write) acc).2
        = acc.2 ++ rs.map fun p => (update_bq_row env write p.1 p.2.context p.2.status).2 := by
  induction rs with
  | nil => intro acc; simp
  | cons p t ih =>
    intro acc
    rw [List.foldl_cons, ih]
    simp [reconcileStep]

lemma reconcileLoop_fst (env : Env) (write : String → WriteOutcome)
    (rs : List (String × ItemResult)) :
    (reconcileLoop env write rs).1 = countSuccessfulWrites env write rs := by
  unfold reconcileLoop
  rw [reconcile_foldl_fst]
  simp

lemma reconcileLoop_snd (env : Env) (write : String → WriteOutcome)
    (rs : List (String × ItemResult)) :
    (reconcileLoop env write rs).2
      = rs.map fun p => (update_bq_row env write p.1 p.2.context p.2.status).2 := by
  unfold reconcileLoop
  rw [reconcile_foldl_snd]
  simp

lemma runJob_ok_eq (env : Env) (items : List WorkItem)
    (behavior : WorkItem → CallBehavior) (write : String → WriteOutcome)
    (hstart : startupRaises env = false)
    (hsrc : falsyOpt env.BIGQUERY_TABLE_SOURCE = false)
    (hne : items ≠ []) :
    runJob env (FetchResult.rows items) ClaimOutcome.ok behavior write
      = (JobResult.returns
           (batchReport (dispatchLoop (resolvedServiceUrl env) items behavior).length
             (reconcileLoop env write (dispatchLoop (resolvedServiceUrl env) items behavior)).1)
           200,
         Event.fetchQuery :: Event.claim (items.map WorkItem.id)
           :: (items.map fun i => Event.dispatch i.id)
           ++ (reconcileLoop env write (dispatchLoop (resolvedServiceUrl env) items behavior)).2) := by
  have hurl : (resolvedServiceUrl env).isEmpty = false := hstart
  have hempty : items.isEmpty = false := by
    cases items with
    | nil => exact absurd rfl hne
    | cons a t => rfl
  simp [runJob, process_batch_from_bq, startupRaises, hurl, hsrc, hempty]

lemma runJob_claimfail_eq (env : Env) (items : List WorkItem)
    (behavior : WorkItem → CallBehavior) (write : String → WriteOutcome) (e : String)
    (hstart : startupRaises env = false)
    (hsrc : falsyOpt env.BIGQUERY_TABLE_SOURCE = false)
    (hne : items ≠ []) :
    runJob env (FetchResult.rows items) (ClaimOutcome.failure e) behavior write
      = (JobResult.raisesError e,
         [Event.fetchQuery, Event.claim (items.map WorkItem.id)]) := by
  have hurl : (resolvedServiceUrl env).isEmpty = false := hstart
  have hempty : items.isEmpty = false := by
    cases items with
    | nil => exact absurd rfl hne
    | cons a t => rfl
  simp [runJob, process_batch_from_bq, startupRaises, hurl, hsrc, hempty]

lemma runJob_empty_eq (env : Env) (co : ClaimOutcome)
    (behavior : WorkItem → CallBehavior) (write : String → WriteOutcome)
    (hstart : startupRaises env = false)
    (hsrc : falsyOpt env.BIGQUERY_TABLE_SOURCE = false) :
    runJob env (FetchResult.rows []) co behavior write
      = (JobResult.returns "No pending URLs found. Job finished." 200, [Event.fetchQuery]) := by
  have hurl : (resolvedServiceUrl env).isEmpty = false := hstart
  simp [runJob, process_batch_from_bq, startupRaises, hurl, hsrc]

lemma foldl_applyEvent_dispatch (l : List WorkItem) :
    ∀ st : String → Status,
      ((l.map fun i => Event.dispatch i.id).foldl applyEvent st) = st := by
  induction l with
  | nil => intro st; rfl
  | cons i t ih =>
    intro st
    rw [List.map_cons, List.foldl_cons]
    exact ih st

lemma foldl_applyEvent_writeSkipped (rs : List (String × ItemResult)) :
    ∀ st : String → Status,
      ((rs.map fun p => Event.writeSkipped p.1).foldl applyEvent st) = st := by
  induction rs with
  | nil => intro st; rfl
  | cons p t ih =>
    intro st
    rw [List.map_cons, List.foldl_cons]
    exact ih st

lemma claim_mem_of_decomp (ids : List String) (rest pre post : List Event) (e : Event)
    (hdecomp : Event.fetchQuery :: Event.claim ids :: rest = pre ++ e :: post)
    (hde : isDispatchEvt e = true ∨ isWriteEvt e = true) :
    Event.claim ids ∈ pre := by
  cases pre with
  | nil =>
    simp only [List.nil_append, List.cons.injEq] at hdecomp
    rcases hdecomp with ⟨he, _⟩
    rw [← he] at hde
    simp [isDispatchEvt, isWriteEvt] at hde
  | cons p1 pre1 =>
    simp only [List.cons_append, List.cons.injEq] at hdecomp
    rcases hdecomp with ⟨hp1, hdecomp2⟩
    cases pre1 with
    | nil =>
      simp only [List.nil_append, List.cons.injEq] at hdecomp2
      rcases hdecomp2 with ⟨he, _⟩
      rw [← he] at hde
      simp [isDispatchEvt, isWriteEvt] at hde
    | cons p2 pre2 =>
      simp only [List.cons_append, List.cons.injEq] at hdecomp2
      rcases hdecomp2 with ⟨hp2, _⟩
      subst hp2
      simp

lemma classifyContent_marker (content : String) (h : pyStartswith content "ERROR:" = true) :
    classifyContent content = { context := content, status := Status.FAILED_PROCESSING } := by
  simp [classifyContent, h]

lemma classifyContent_no_marker (content : String) (h : pyStartswith content "ERROR:" = false) :
    classifyContent content = { context := content, status := Status.COMPLETED } := by
  simp [classifyContent, h]

lemma cups_timeout_marker (svc url : String) :
    pyStartswith (call_url_processor_service svc url HttpOutcome.timeout) "ERROR:" = true := by
  show pyStartswith ("ERROR: Timeout processing '" ++ url ++ "' at " ++ svc) "ERROR:" = true
  apply pyStartswith_append_left
  apply pyStartswith_append_left
  apply pyStartswith_append_left
  decide

lemma cups_requestError_marker (svc url e : String) :
    pyStartswith (call_url_processor_service svc url (HttpOutcome.requestError e)) "ERROR:"
      = true := by
  show pyStartswith ("ERROR: Request failed for '" ++ url ++ "'. Details: " ++ e) "ERROR:" = true
  apply pyStartswith_append_left
  apply pyStartswith_append_left
  apply pyStartswith_append_left
  decide

lemma cups_otherError_marker (svc url e : String) :
    pyStartswith (call_url_processor_service svc url (HttpOutcome.otherError e)) "ERROR:"
      = true := by
  show pyStartswith ("ERROR: Unexpected error for '" ++ url ++ "'. Details: " ++ e) "ERROR:"
      = true
  apply pyStartswith_append_left
  apply pyStartswith_append_left
  apply pyStartswith_append_left
  decide

/-! ### Claim theorems -/

/-- Claim C1: for every fetched batch and every per-item behaviour of the
worker calls — including faulting ones — the dispatcher collects exactly
one outcome per input item: the keys of `processed_results` are exactly the
fetched ids in order, with no drops and no duplicates, so there are exactly
`n` outcomes for `n` items.  The hypothesis that the fetched ids are
pairwise distinct is the data model's invariant (ids are store-assigned
unique identifiers); no fault from one item's call removes or duplicates
any other item's outcome. -/
theorem C1_dispatcher_one_outcome_per_item (svc : String) (items : List WorkItem)
    (behavior : WorkItem → CallBehavior) (h : (items.map WorkItem.id).Nodup) :
    dictKeys (dispatchLoop svc items behavior) = items.map WorkItem.id ∧
    (dispatchLoop svc items behavior).length = items.length := by
  refine ⟨dispatchLoop_keys svc items behavior h, ?_⟩
  have hlen := congrArg List.length (dispatchLoop_keys svc items behavior h)
  simpa [dictKeys] using hlen

/-- Witness for C1: a concrete two-item batch in which the first item's
call times out at the future and the second item's call raises, yet both
outcomes are collected. -/
theorem C1_witness :
    ((([⟨"u1", "1"⟩, ⟨"u2", "2"⟩] : List WorkItem).map WorkItem.id).Nodup) ∧
    (dictKeys (dispatchLoop "https://svc" [⟨"u1", "1"⟩, ⟨"u2", "2"⟩]
        (fun i => if i.id == "1" then CallBehavior.futureTimeout
          else CallBehavior.futureError "boom"))
        = ([⟨"u1", "1"⟩, ⟨"u2", "2"⟩] : List WorkItem).map WorkItem.id ∧
      (dispatchLoop "https://svc" [⟨"u1", "1"⟩, ⟨"u2", "2"⟩]
        (fun i => if i.id == "1" then CallBehavior.futureTimeout
          else CallBehavior.futureError "boom")).length
        = ([⟨"u1", "1"⟩, ⟨"u2", "2"⟩] : List WorkItem).length) :=
  ⟨by decide,
   C1_dispatcher_one_outcome_per_item "https://svc" [⟨"u1", "1"⟩, ⟨"u2", "2"⟩]
     (fun i => if i.id == "1" then CallBehavior.futureTimeout
       else CallBehavior.futureError "boom") (by decide)⟩

/-- Claim C2: whenever an invocation reaches dispatch, the single claim
UPDATE covering all fetched ids is the second trace event — right after
the fetch query — and every dispatch of a processing call and every result
write is strictly preceded by it: in any decomposition of the trace around
a dispatch or write event, the claim event lies in the preceding segment. -/
theorem C2_claim_happens_before_dispatch_and_writes (env : Env) (items : List WorkItem)
    (co : ClaimOutcome) (behavior : WorkItem → CallBehavior) (write : String → WriteOutcome)
    (hstart : startupRaises env = false)
    (hsrc : falsyOpt env.BIGQUERY_TABLE_SOURCE = false)
    (hne : items ≠ []) :
    ∃ rest : List Event,
      (runJob env (FetchResult.rows items) co behavior write).2
        = Event.fetchQuery :: Event.claim (items.map WorkItem.id) :: rest ∧
      ∀ (pre post : List Event) (e : Event),
        (runJob env (FetchResult.rows items) co behavior write).2 = pre ++ e :: post →
        isDispatchEvt e = true ∨ isWriteEvt e = true →
        Event.claim (items.map WorkItem.id) ∈ pre := by
  have hshape : ∃ rest : List Event,
      (runJob env (FetchResult.rows items) co behavior write).2
        = Event.fetchQuery :: Event.claim (items.map WorkItem.id) :: rest := by
    cases co with
    | ok =>
        refine ⟨(items.map fun i => Event.dispatch i.id)
          ++ (reconcileLoop env write (dispatchLoop (resolvedServiceUrl env) items behavior)).2,
          ?_⟩
        rw [runJob_ok_eq env items behavior write hstart hsrc hne]
        rfl
    | failure e =>
        exact ⟨[], by
          rw [runJob_claimfail_eq env items behavior write e hstart hsrc hne]⟩
  obtain ⟨rest, htr⟩ := hshape
  refine ⟨rest, htr, ?_⟩
  intro pre post e hdecomp hde
  refine claim_mem_of_decomp (items.map WorkItem.id) rest pre post e ?_ hde
  rw [← htr, hdecomp]

/-- Witness for C2: a concrete run over a fully configured environment with
one successfully processed item. -/
theorem C2_witness :
    ∃ rest : List Event,
      (runJob envFull (FetchResult.rows [⟨"u1", "1"⟩]) ClaimOutcome.ok
          (fun _ => CallBehavior.returns (HttpOutcome.success "ok"))
          (fun _ => WriteOutcome.ok)).2
        = Event.fetchQuery
            :: Event.claim (([⟨"u1", "1"⟩] : List WorkItem).map WorkItem.id) :: rest ∧
      ∀ (pre post : List Event) (e : Event),
        (runJob envFull (FetchResult.rows [⟨"u1", "1"⟩]) ClaimOutcome.ok
            (fun _ => CallBehavior.returns (HttpOutcome.success "ok"))
            (fun _ => WriteOutcome.ok)).2 = pre ++ e :: post →
        isDispatchEvt e = true ∨ isWriteEvt e = true →
        Event.claim (([⟨"u1", "1"⟩] : List WorkItem).map WorkItem.id) ∈ pre :=
  C2_claim_happens_before_dispatch_and_writes envFull [⟨"u1", "1"⟩] ClaimOutcome.ok
    (fun _ => CallBehavior.returns (HttpOutcome.success "ok")) (fun _ => WriteOutcome.ok)
    (by decide) (by decide) (by decide)

/-- Claim C3 records a code bug: with `URL_PROCESSOR_SERVICE_URL` unset and
the source table configured, `os.environ.get`'s hard-coded default URL makes
the module-level guard (src/main.py lines 30-32) unreachable, so — contrary
to the claim and to the guard's evident intent — the job does not fail at
startup: it resolves the placeholder default, runs normally, and issues the
fetch query against the store, returning code 200. -/
theorem C3_unset_url_job_still_runs_and_queries :
    startupRaises envNoUrl = false ∧
    resolvedServiceUrl envNoUrl = defaultServiceUrl ∧
    (runJob envNoUrl (FetchResult.rows []) ClaimOutcome.ok
        (fun _ => CallBehavior.returns (HttpOutcome.success "ok"))
        (fun _ => WriteOutcome.ok)).1
      = JobResult.returns "No pending URLs found. Job finished." 200 ∧
    Event.fetchQuery ∈ (runJob envNoUrl (FetchResult.rows []) ClaimOutcome.ok
        (fun _ => CallBehavior.returns (HttpOutcome.success "ok"))
        (fun _ => WriteOutcome.ok)).2 := by
  decide

/-- Counterexample to claim C4: a call that exceeds the per-call timeout
inside the HTTP request (`requests.exceptions.Timeout`, src/main.py lines
62-64) yields the synthesized message naming the url and the service
address, not the item id — for the item with id "42" and url "http://video"
the outcome is `FAILED_PROCESSING` but its context does not contain "42". -/
theorem C4_counterexample_timeout_context_lacks_id :
    (dispatchOne "https://svc" "http://video" "42"
        (CallBehavior.returns HttpOutcome.timeout)).status = Status.FAILED_PROCESSING ∧
    occursIn "42" (dispatchOne "https://svc" "http://video" "42"
        (CallBehavior.returns HttpOutcome.timeout)).context = false := by
  decide

/-- Claim C4 as amended: a timed-out processing call always yields status
`FAILED_PROCESSING`; the synthesized context contains the item id when the
timeout surfaces at `future.result` (the `TimeoutError` handler), while it
contains the item's url — not necessarily its id — when the HTTP call
itself times out. -/
theorem C4_amended_timeout_classification (svc url id : String) :
    (dispatchOne svc url id CallBehavior.futureTimeout).status = Status.FAILED_PROCESSING ∧
    occursIn id (dispatchOne svc url id CallBehavior.futureTimeout).context = true ∧
    (dispatchOne svc url id (CallBehavior.returns HttpOutcome.timeout)).status
      = Status.FAILED_PROCESSING ∧
    occursIn url (dispatchOne svc url id (CallBehavior.returns HttpOutcome.timeout)).context
      = true := by
  refine ⟨rfl, ?_, ?_, ?_⟩
  · exact occursIn_middle "ERROR: Processing timed out for '" id "'."
  · show (classifyContent (call_url_processor_service svc url HttpOutcome.timeout)).status = _
    rw [classifyContent_marker _ (cups_timeout_marker svc url)]
  · show occursIn url
      (classifyContent (call_url_processor_service svc url HttpOutcome.timeout)).context = true
    rw [classifyContent_marker _ (cups_timeout_marker svc url)]
    show occursIn url ("ERROR: Timeout processing '" ++ url ++ "' at " ++ svc) = true
    rw [String.append_assoc ("ERROR: Timeout processing '" ++ url) "' at " svc]
    exact occursIn_middle "ERROR: Timeout processing '" url ("' at " ++ svc)

/-- Claim C5: when an item's call returns text, classification is by the
`"ERROR:"` marker — marker-prefixed text yields `FAILED_PROCESSING` with
the returned text preserved verbatim as context, and any other text yields
`COMPLETED` with the returned text as context. -/
theorem C5_error_marker_classification (svc url id : String) (h : HttpOutcome) :
    (pyStartswith (call_url_processor_service svc url h) "ERROR:" = true →
      dispatchOne svc url id (CallBehavior.returns h)
        = { context := call_url_processor_service svc url h
            status := Status.FAILED_PROCESSING }) ∧
    (pyStartswith (call_url_processor_service svc url h) "ERROR:" = false →
      dispatchOne svc url id (CallBehavior.returns h)
        = { context := call_url_processor_service svc url h
            status := Status.COMPLETED }) := by
  constructor
  · intro hsw
    show classifyContent (call_url_processor_service svc url h) = _
    exact classifyContent_marker _ hsw
  · intro hsw
    show classifyContent (call_url_processor_service svc url h) = _
    exact classifyContent_no_marker _ hsw

/-- Witness for C5: an endpoint-reported failure body is recorded verbatim
as a `FAILED_PROCESSING` context, a plain body as a `COMPLETED` context. -/
theorem C5_witness :
    (pyStartswith (call_url_processor_service "https://svc" "u"
        (HttpOutcome.success "ERROR: endpoint failed")) "ERROR:" = true ∧
      dispatchOne "https://svc" "u" "1"
          (CallBehavior.returns (HttpOutcome.success "ERROR: endpoint failed"))
        = { context := "ERROR: endpoint failed", status := Status.FAILED_PROCESSING }) ∧
    (pyStartswith (call_url_processor_service "https://svc" "u"
        (HttpOutcome.success "chapter text")) "ERROR:" = false ∧
      dispatchOne "https://svc" "u" "1"
          (CallBehavior.returns (HttpOutcome.success "chapter text"))
        = { context := "chapter text", status := Status.COMPLETED }) :=
  ⟨⟨by decide,
    (C5_error_marker_classification "https://svc" "u" "1"
      (HttpOutcome.success "ERROR: endpoint failed")).1 (by decide)⟩,
   ⟨by decide,
    (C5_error_marker_classification "https://svc" "u" "1"
      (HttpOutcome.success "chapter text")).2 (by decide)⟩⟩

/-- Counterexample to claim C6: two invocations with the same claimed set
and the same write results but different completed / failed_processing
splits produce the very same final report, so the report cannot contain the
four counts the claim requires — completed and failed_processing are not in
it. -/
theorem C6_counterexample_report_misses_status_counts :
    (runJob envFull (FetchResult.rows [⟨"u1", "1"⟩]) ClaimOutcome.ok
        (fun _ => CallBehavior.returns (HttpOutcome.success "fine"))
        (fun _ => WriteOutcome.ok)).1
      = (runJob envFull (FetchResult.rows [⟨"u1", "1"⟩]) ClaimOutcome.ok
        (fun _ => CallBehavior.returns (HttpOutcome.success "ERROR: model failed"))
        (fun _ => WriteOutcome.ok)).1 ∧
    completedCount (dispatchLoop (resolvedServiceUrl envFull) [⟨"u1", "1"⟩]
        (fun _ => CallBehavior.returns (HttpOutcome.success "fine")))
      ≠ completedCount (dispatchLoop (resolvedServiceUrl envFull) [⟨"u1", "1"⟩]
        (fun _ => CallBehavior.returns (HttpOutcome.success "ERROR: model failed"))) := by
  decide

/-- Claim C6 as amended: an invocation that reaches reconciliation reports
two counts — the number of processed items (equal to the number of claimed
items, the ids being distinct) and the number of successful result writes;
write-failed is their difference, and no completed / failed_processing
split appears in the report. -/
theorem C6_amended_report_two_counts (env : Env) (items : List WorkItem)
    (behavior : WorkItem → CallBehavior) (write : String → WriteOutcome)
    (hstart : startupRaises env = false)
    (hsrc : falsyOpt env.BIGQUERY_TABLE_SOURCE = false)
    (hne : items ≠ [])
    (hnodup : (items.map WorkItem.id).Nodup) :
    (runJob env (FetchResult.rows items) ClaimOutcome.ok behavior write).1
      = JobResult.returns
          (batchReport items.length
            (countSuccessfulWrites env write
              (dispatchLoop (resolvedServiceUrl env) items behavior)))
          200 := by
  have hlen : (dispatchLoop (resolvedServiceUrl env) items behavior).length = items.length := by
    have h := congrArg List.length (dispatchLoop_keys (resolvedServiceUrl env) items behavior hnodup)
    simpa [dictKeys] using h
  rw [runJob_ok_eq env items behavior write hstart hsrc hne]
  show JobResult.returns
      (batchReport (dispatchLoop (resolvedServiceUrl env) items behavior).length
        (reconcileLoop env write (dispatchLoop (resolvedServiceUrl env) items behavior)).1)
      200 = _
  rw [hlen, reconcileLoop_fst]

/-- Witness for C6: a two-item batch, one write failing, reporting
"Processed 2 URLs, updated 1.". -/
theorem C6_witness :
    startupRaises envFull = false ∧
    falsyOpt envFull.BIGQUERY_TABLE_SOURCE = false ∧
    ([⟨"u1", "1"⟩, ⟨"u2", "2"⟩] : List WorkItem) ≠ [] ∧
    ((([⟨"u1", "1"⟩, ⟨"u2", "2"⟩] : List WorkItem).map WorkItem.id).Nodup) ∧
    (runJob envFull (FetchResult.rows [⟨"u1", "1"⟩, ⟨"u2", "2"⟩]) ClaimOutcome.ok
        (fun _ => CallBehavior.returns (HttpOutcome.success "ok"))
        (fun id => if id == "2" then WriteOutcome.storeError "down" else WriteOutcome.ok)).1
      = JobResult.returns (batchReport 2 1) 200 :=
  ⟨by decide, by decide, by decide, by decide,
   C6_amended_report_two_counts envFull [⟨"u1", "1"⟩, ⟨"u2", "2"⟩]
     (fun _ => CallBehavior.returns (HttpOutcome.success "ok"))
     (fun id => if id == "2" then WriteOutcome.storeError "down" else WriteOutcome.ok)
     (by decide) (by decide) (by decide) (by decide)⟩

/-- Claim C7: with the target table configured, reconciliation issues the
result write for every collected outcome exactly once, in order, whatever
subset of writes the store fails — a failed write for one id never prevents
attempting the remaining ids. -/
theorem C7_write_failures_do_not_abort_reconciliation (env : Env)
    (write : String → WriteOutcome) (rs : List (String × ItemResult))
    (htgt : falsyOpt env.BIGQUERY_TABLE_TARGET = false) :
    ((reconcileLoop env write rs).2).filterMap writeAttemptId = rs.map Prod.fst ∧
    ∀ e ∈ (reconcileLoop env write rs).2, isWriteAttempt e = true := by
  have hsnd := reconcileLoop_snd env write rs
  constructor
  · rw [hsnd]
    clear hsnd
    induction rs with
    | nil => rfl
    | cons p t ih =>
      rw [List.map_cons, List.map_cons, List.filterMap_cons,
        update_bq_row_target_set env write p.1 p.2.context p.2.status htgt]
      simp only [writeAttemptId]
      rw [ih]
  · intro e he
    rw [hsnd] at he
    obtain ⟨p, _, rfl⟩ := List.mem_map.mp he
    rw [update_bq_row_target_set env write p.1 p.2.context p.2.status htgt]
    rfl

/-- Witness for C7: two outcomes, the store failing the first write; both
ids are still attempted, in order. -/
theorem C7_witness :
    falsyOpt envFull.BIGQUERY_TABLE_TARGET = false ∧
    (((reconcileLoop envFull
          (fun id => if id == "1" then WriteOutcome.storeError "down" else WriteOutcome.ok)
          [("1", { context := "a", status := Status.COMPLETED }),
           ("2", { context := "b", status := Status.FAILED_PROCESSING })]).2).filterMap
        writeAttemptId
      = ([("1", ({ context := "a", status := Status.COMPLETED } : ItemResult)),
          ("2", { context := "b", status := Status.FAILED_PROCESSING })]).map Prod.fst ∧
      ∀ e ∈ (reconcileLoop envFull
          (fun id => if id == "1" then WriteOutcome.storeError "down" else WriteOutcome.ok)
          [("1", { context := "a", status := Status.COMPLETED }),
           ("2", { context := "b", status := Status.FAILED_PROCESSING })]).2,
        isWriteAttempt e = true) :=
  ⟨by decide,
   C7_write_failures_do_not_abort_reconciliation envFull
     (fun id => if id == "1" then WriteOutcome.storeError "down" else WriteOutcome.ok)
     [("1", { context := "a", status := Status.COMPLETED }),
      ("2", { context := "b", status := Status.FAILED_PROCESSING })] (by decide)⟩

/-- Claim C8: when the fetch returns no pending rows the job returns the
"no pending work" message with success code 200, and the trace is the fetch
query alone — no claim UPDATE and no result write of any kind is issued. -/
theorem C8_empty_fetch_short_circuits_without_mutations (env : Env) (co : ClaimOutcome)
    (behavior : WorkItem → CallBehavior) (write : String → WriteOutcome)
    (hstart : startupRaises env = false)
    (hsrc : falsyOpt env.BIGQUERY_TABLE_SOURCE = false) :
    runJob env (FetchResult.rows []) co behavior write
      = (JobResult.returns "No pending URLs found. Job finished." 200, [Event.fetchQuery]) ∧
    ∀ e ∈ (runJob env (FetchResult.rows []) co behavior write).2,
      (∀ ids, e ≠ Event.claim ids) ∧ isWriteEvt e = false := by
  have h := runJob_empty_eq env co behavior write hstart hsrc
  refine ⟨h, ?_⟩
  intro e he
  rw [h] at he
  simp only [List.mem_singleton] at he
  subst he
  exact ⟨fun ids h' => Event.noConfusion h', rfl⟩

/-- Witness for C8: a concrete empty fetch over the fully configured
environment. -/
theorem C8_witness :
    (runJob envFull (FetchResult.rows []) ClaimOutcome.ok
        (fun _ => CallBehavior.returns (HttpOutcome.success "ok"))
        (fun _ => WriteOutcome.ok))
      = (JobResult.returns "No pending URLs found. Job finished." 200, [Event.fetchQuery]) ∧
    ∀ e ∈ (runJob envFull (FetchResult.rows []) ClaimOutcome.ok
        (fun _ => CallBehavior.returns (HttpOutcome.success "ok"))
        (fun _ => WriteOutcome.ok)).2,
      (∀ ids, e ≠ Event.claim ids) ∧ isWriteEvt e = false :=
  C8_empty_fetch_short_circuits_without_mutations envFull ClaimOutcome.ok
    (fun _ => CallBehavior.returns (HttpOutcome.success "ok"))
    (fun _ => WriteOutcome.ok) (by decide) (by decide)

/-- Claim C9: with the source table configured and the target table unset,
the job does not fail: it still fetches, claims and dispatches the batch;
every per-item result write returns failure without any store write being
attempted; the final report says zero rows updated with success code 200;
and every claimed id's durable status remains `PROCESSING`. -/
theorem C9_missing_target_silent_success (env : Env) (items : List WorkItem)
    (behavior : WorkItem → CallBehavior) (write : String → WriteOutcome)
    (hstart : startupRaises env = false)
    (hsrc : falsyOpt env.BIGQUERY_TABLE_SOURCE = false)
    (htgt : falsyOpt env.BIGQUERY_TABLE_TARGET = true)
    (hne : items ≠ []) :
    (runJob env (FetchResult.rows items) ClaimOutcome.ok behavior write).1
      = JobResult.returns
          (batchReport (dispatchLoop (resolvedServiceUrl env) items behavior).length 0) 200 ∧
    Event.claim (items.map WorkItem.id)
      ∈ (runJob env (FetchResult.rows items) ClaimOutcome.ok behavior write).2 ∧
    (∀ i ∈ items, Event.dispatch i.id
      ∈ (runJob env (FetchResult.rows items) ClaimOutcome.ok behavior write).2) ∧
    (∀ e ∈ (runJob env (FetchResult.rows items) ClaimOutcome.ok behavior write).2,
      isWriteAttempt e = false) ∧
    (∀ id ∈ items.map WorkItem.id,
      finalStatus (runJob env (FetchResult.rows items) ClaimOutcome.ok behavior write).2 id
        = Status.PROCESSING) := by
  have hwfst : ∀ p : String × ItemResult,
      (update_bq_row env write p.1 p.2.context p.2.status).1 = false := fun p => by
    rw [update_bq_row_target_unset env write p.1 p.2.context p.2.status htgt]
  have hwsnd : ∀ p : String × ItemResult,
      (update_bq_row env write p.1 p.2.context p.2.status).2 = Event.writeSkipped p.1 :=
    fun p => by
      rw [update_bq_row_target_unset env write p.1 p.2.context p.2.status htgt]
  have hrec1 : (reconcileLoop env write
      (dispatchLoop (resolvedServiceUrl env) items behavior)).1 = 0 := by
    rw [reconcileLoop_fst]
    simp [countSuccessfulWrites, hwfst]
  have hrec2 : (reconcileLoop env write
        (dispatchLoop (resolvedServiceUrl env) items behavior)).2
      = (dispatchLoop (resolvedServiceUrl env) items behavior).map
          fun p => Event.writeSkipped p.1 := by
    rw [reconcileLoop_snd]
    simp [hwsnd]
  have htr := runJob_ok_eq env items behavior write hstart hsrc hne
  refine ⟨?_, ?_, ?_, ?_, ?_⟩
  · rw [htr]
    show JobResult.returns
        (batchReport (dispatchLoop (resolvedServiceUrl env) items behavior).length
          (reconcileLoop env write (dispatchLoop (resolvedServiceUrl env) items behavior)).1)
        200 = _
    rw [hrec1]
  · rw [htr]
    simp
  · intro i hi
    rw [htr]
    show Event.dispatch i.id ∈ Event.fetchQuery :: Event.claim (items.map WorkItem.id)
      :: ((items.map fun i => Event.dispatch i.id)
          ++ (reconcileLoop env write (dispatchLoop (resolvedServiceUrl env) items behavior)).2)
    simp only [List.mem_cons, List.mem_append]
    exact Or.inr (Or.inr (Or.inl (List.mem_map_of_mem _ hi)))
  · intro e he
    rw [htr, hrec2] at he
    rcases List.mem_cons.mp he with rfl | he'
    · rfl
    rcases List.mem_cons.mp he' with rfl | he''
    · rfl
    rcases List.mem_append.mp he'' with hd | hw
    · obtain ⟨i, _, rfl⟩ := List.mem_map.mp hd
      rfl
    · obtain ⟨p, _, rfl⟩ := List.mem_map.mp hw
      rfl
  · intro id hid
    rw [htr, hrec2]
    show ((Event.fetchQuery :: Event.claim (items.map WorkItem.id)
        :: ((items.map fun i => Event.dispatch i.id)
            ++ (dispatchLoop (resolvedServiceUrl env) items behavior).map
                fun p => Event.writeSkipped p.1)).foldl applyEvent
          fun _ => Status.PENDING) id = Status.PROCESSING
    rw [List.foldl_cons, List.foldl_cons, List.foldl_append,
      foldl_applyEvent_dispatch, foldl_applyEvent_writeSkipped]
    show (applyEvent (applyEvent (fun _ => Status.PENDING) Event.fetchQuery)
        (Event.claim (items.map WorkItem.id))) id = Status.PROCESSING
    simp [applyEvent, hid]

/-- Witness for C9: a concrete one-item batch over the environment whose
target table is unset; the write oracle would succeed, yet it is never
consulted. -/
theorem C9_witness :
    startupRaises envNoTarget = false ∧
    falsyOpt envNoTarget.BIGQUERY_TABLE_SOURCE = false ∧
    falsyOpt envNoTarget.BIGQUERY_TABLE_TARGET = true ∧
    ([⟨"u1", "1"⟩] : List WorkItem) ≠ [] ∧
    ((runJob envNoTarget (FetchResult.rows [⟨"u1", "1"⟩]) ClaimOutcome.ok
        (fun _ => CallBehavior.returns (HttpOutcome.success "ok"))
        (fun _ => WriteOutcome.ok)).1
      = JobResult.returns
          (batchReport (dispatchLoop (resolvedServiceUrl envNoTarget) [⟨"u1", "1"⟩]
            (fun _ => CallBehavior.returns (HttpOutcome.success "ok"))).length 0) 200 ∧
      Event.claim (([⟨"u1", "1"⟩] : List WorkItem).map WorkItem.id)
        ∈ (runJob envNoTarget (FetchResult.rows [⟨"u1", "1"⟩]) ClaimOutcome.ok
            (fun _ => CallBehavior.returns (HttpOutcome.success "ok"))
            (fun _ => WriteOutcome.ok)).2 ∧
      (∀ i ∈ ([⟨"u1", "1"⟩] : List WorkItem), Event.dispatch i.id
        ∈ (runJob envNoTarget (FetchResult.rows [⟨"u1", "1"⟩]) ClaimOutcome.ok
            (fun _ => CallBehavior.returns (HttpOutcome.success "ok"))
            (fun _ => WriteOutcome.ok)).2) ∧
      (∀ e ∈ (runJob envNoTarget (FetchResult.rows [⟨"u1", "1"⟩]) ClaimOutcome.ok
            (fun _ => CallBehavior.returns (HttpOutcome.success "ok"))
            (fun _ => WriteOutcome.ok)).2,
        isWriteAttempt e = false) ∧
      (∀ id ∈ ([⟨"u1", "1"⟩] : List WorkItem).map WorkItem.id,
        finalStatus (runJob envNoTarget (FetchResult.rows [⟨"u1", "1"⟩]) ClaimOutcome.ok
            (fun _ => CallBehavior.returns (HttpOutcome.success "ok"))
            (fun _ => WriteOutcome.ok)).2 id
          = Status.PROCESSING)) :=
  ⟨by decide, by decide, by decide, by decide,
   C9_missing_target_silent_success envNoTarget [⟨"u1", "1"⟩]
     (fun _ => CallBehavior.returns (HttpOutcome.success "ok")) (fun _ => WriteOutcome.ok)
     (by decide) (by decide) (by decide) (by decide)⟩

/-- Claim C10: classification is purely a function of the returned string —
identical strings yield identical outcomes whatever their origin; a genuine
success whose body begins with `"ERROR:"` is recorded as
`FAILED_PROCESSING` with that body as context; and the strings synthesized
for timeouts, request/HTTP errors and unexpected exceptions inside
`call_url_processor_service` all carry the `"ERROR:"` marker and are all
classified `FAILED_PROCESSING`, indistinguishably from endpoint-reported
errors. -/
theorem C10_marker_conflates_success_and_faults (svc url id e1 e2 : String) :
    (∀ h1 h2 : HttpOutcome,
      call_url_processor_service svc url h1 = call_url_processor_service svc url h2 →
      dispatchOne svc url id (CallBehavior.returns h1)
        = dispatchOne svc url id (CallBehavior.returns h2)) ∧
    (∀ body : String, pyStartswith body "ERROR:" = true →
      dispatchOne svc url id (CallBehavior.returns (HttpOutcome.success body))
        = { context := body, status := Status.FAILED_PROCESSING }) ∧
    pyStartswith (call_url_processor_service svc url HttpOutcome.timeout) "ERROR:" = true ∧
    pyStartswith (call_url_processor_service svc url (HttpOutcome.requestError e1)) "ERROR:"
      = true ∧
    pyStartswith (call_url_processor_service svc url (HttpOutcome.otherError e2)) "ERROR:"
      = true ∧
    (dispatchOne svc url id (CallBehavior.returns HttpOutcome.timeout)).status
      = Status.FAILED_PROCESSING ∧
    (dispatchOne svc url id (CallBehavior.returns (HttpOutcome.requestError e1))).status
      = Status.FAILED_PROCESSING ∧
    (dispatchOne svc url id (CallBehavior.returns (HttpOutcome.otherError e2))).status
      = Status.FAILED_PROCESSING := by
  refine ⟨?_, ?_, cups_timeout_marker svc url, cups_requestError_marker svc url e1,
    cups_otherError_marker svc url e2, ?_, ?_, ?_⟩
  · intro h1 h2 heq
    show classifyContent (call_url_processor_service svc url h1)
      = classifyContent (call_url_processor_service svc url h2)
    rw [heq]
  · intro body hsw
    show classifyContent (call_url_processor_service svc url (HttpOutcome.success body)) = _
    exact classifyContent_marker _ hsw
  · show (classifyContent (call_url_processor_service svc url HttpOutcome.timeout)).status = _
    rw [classifyContent_marker _ (cups_timeout_marker svc url)]
  · show (classifyContent
        (call_url_processor_service svc url (HttpOutcome.requestError e1))).status = _
    rw [classifyContent_marker _ (cups_requestError_marker svc url e1)]
  · show (classifyContent
        (call_url_processor_service svc url (HttpOutcome.otherError e2))).status = _
    rw [classifyContent_marker _ (cups_otherError_marker svc url e2)]

/-- Witness for C10: a genuinely successful response body that happens to
begin with the marker is persisted as a failure, exactly like a timeout. -/
theorem C10_witness :
    dispatchOne "https://svc" "u" "1"
        (CallBehavior.returns (HttpOutcome.success "ERROR: looks bad"))
      = { context := "ERROR: looks bad", status := Status.FAILED_PROCESSING } ∧
    pyStartswith (call_url_processor_service "https://svc" "u" HttpOutcome.timeout) "ERROR:"
      = true :=
  ⟨(C10_marker_conflates_success_and_faults "https://svc" "u" "1" "x" "y").2.1
      "ERROR: looks bad" (by decide),
   (C10_marker_conflates_success_and_faults "https://svc" "u" "1" "x" "y").2.2.1⟩

end VideoBatch
